import Mathlib

/-!
Verification of the conversational side-effect dispatcher of `my_ai_backend`
(`src/app.py`, `src/google_services.py`) against its natural-language
specification.

The embedding models:
  * the conversation history store (`load_conversation_history`,
    `save_conversation_history`, the `GET`/`DELETE /chat/history/<id>`
    handlers, app.py lines 494-503 and 657-676);
  * the `POST /chat` handler (app.py lines 553-654) as a pure function from
    the request, the persisted store and an oracle for the one external model
    call, to an outcome that records the response, the persisted store and a
    trace of external calls;
  * the calendar executor `create_calendar_event` (app.py 263-297, identical
    to google_services.py 100-134) and the email executor `send_email`
    (app.py 299-316, identical to google_services.py 136-153).

Machine strings are Lean `String`; Python `dict.get(k, d)` on optional JSON
fields is `Option` with `getD`; the single JSON blob file backing the history
store is `Option Store` (`none` = missing or unparseable file, which
`load_conversation_history` maps to the empty mapping).
-/

namespace MyAiBackend

/-- One conversation turn, `{"role": ..., "content": ...}` (app.py 571, 643). -/
structure Turn where
  role : String
  content : String
deriving DecidableEq, Repr

/-- The persisted conversation mapping: conversation id to ordered turns.
Python dicts preserve insertion order and have unique keys; we model the
mapping as an association list whose update keeps the key position and whose
insertion appends at the end. -/
def Store : Type := List (String × List Turn)

instance : DecidableEq Store := by
  unfold Store
  infer_instance

/-- Lookup of a conversation id, `history.get(cid)` / `cid in history`. -/
def storeGet (s : Store) (k : String) : Option (List Turn) :=
  match s with
  | [] => none
  | (k', v) :: t => if k' = k then some v else storeGet t k

/-- Assignment `history[cid] = turns`: replaces in place, or appends a new key. -/
def storeSet (s : Store) (k : String) (v : List Turn) : Store :=
  match s with
  | [] => [(k, v)]
  | (k', v') :: t => if k' = k then (k, v) :: t else (k', v') :: storeSet t k v

/-- Deletion `del history[cid]` (app.py 672). -/
def storeDel (s : Store) (k : String) : Store :=
  match s with
  | [] => []
  | (k', v) :: t => if k' = k then storeDel t k else (k', v) :: storeDel t k

theorem storeGet_storeSet_self (s : Store) (k : String) (v : List Turn) :
    storeGet (storeSet s k v) k = some v := by
  induction s with
  | nil => simp [storeSet, storeGet]
  | cons hd tl ih =>
    obtain ⟨k', v'⟩ := hd
    by_cases h : k' = k
    · simp [storeSet, storeGet, h]
    · simp [storeSet, storeGet, h, ih]

theorem storeGet_storeSet_ne (s : Store) (k k' : String) (v : List Turn)
    (h : k' ≠ k) : storeGet (storeSet s k v) k' = storeGet s k' := by
  have h' : ¬ k = k' := fun hh => h hh.symm
  induction s with
  | nil => simp [storeSet, storeGet, h']
  | cons hd tl ih =>
    obtain ⟨k0, v0⟩ := hd
    by_cases h0 : k0 = k
    · subst h0
      simp [storeSet, storeGet, h']
    · simp [storeSet, storeGet, h0, ih]

theorem storeGet_storeDel_self (s : Store) (k : String) :
    storeGet (storeDel s k) k = none := by
  induction s with
  | nil => simp [storeDel, storeGet]
  | cons hd tl ih =>
    obtain ⟨k', v'⟩ := hd
    by_cases h : k' = k
    · simp [storeDel, storeGet, h, ih]
    · simp [storeDel, storeGet, h, ih]

theorem storeGet_storeDel_ne (s : Store) (k k' : String) (h : k' ≠ k) :
    storeGet (storeDel s k) k' = storeGet s k' := by
  have h' : ¬ k = k' := fun hh => h hh.symm
  induction s with
  | nil => simp [storeDel]
  | cons hd tl ih =>
    obtain ⟨k0, v0⟩ := hd
    by_cases h0 : k0 = k
    · subst h0
      simp [storeDel, storeGet, h', ih]
    · simp [storeDel, storeGet, h0, ih]

/-- app.py 494-499: read and deserialize the whole blob; a missing or
unparseable file yields the empty mapping. -/
def load_conversation_history (file : Option Store) : Store :=
  file.getD []

/-- app.py 501-503: serialize and overwrite the whole blob. -/
def save_conversation_history (h : Store) : Option Store :=
  some h

/-- app.py 657-664, `GET /chat/history/<conversation_id>`: returns
`history.get(conversation_id, [])`. -/
def get_chat_history (file : Option Store) (conversation_id : String) : List Turn :=
  (storeGet (load_conversation_history file) conversation_id).getD []

/-- app.py 667-676, `DELETE /chat/history/<conversation_id>`: deletes the id
and saves only when the id is present; returns the fixed success message in
either case.  The result pairs the response message with the file state after
the call. -/
def clear_chat_history (file : Option Store) (conversation_id : String) :
    String × Option Store :=
  match storeGet (load_conversation_history file) conversation_id with
  | some _ =>
      ("Conversation history cleared",
        save_conversation_history
          (storeDel (load_conversation_history file) conversation_id))
  | none => ("Conversation history cleared", file)

theorem clear_chat_history_msg (file : Option Store) (conversation_id : String) :
    (clear_chat_history file conversation_id).1 = "Conversation history cleared" := by
  unfold clear_chat_history
  rcases storeGet (load_conversation_history file) conversation_id with _ | v <;> rfl

theorem clear_chat_history_absent (file : Option Store) (conversation_id : String)
    (h : storeGet (load_conversation_history file) conversation_id = none) :
    (clear_chat_history file conversation_id).2 = file := by
  unfold clear_chat_history
  rw [h]

theorem storeGet_after_clear (file : Option Store) (conversation_id : String) :
    storeGet (load_conversation_history (clear_chat_history file conversation_id).2)
      conversation_id = none := by
  unfold clear_chat_history
  rcases h : storeGet (load_conversation_history file) conversation_id with _ | v
  · simpa using h
  · simp [load_conversation_history, save_conversation_history, storeGet_storeDel_self]

theorem get_chat_history_after_clear_ne (file : Option Store)
    (conversation_id other_id : String) (h : other_id ≠ conversation_id) :
    get_chat_history (clear_chat_history file conversation_id).2 other_id
      = get_chat_history file other_id := by
  unfold clear_chat_history
  rcases hp : storeGet (load_conversation_history file) conversation_id with _ | v
  · simp
  · simp [get_chat_history, load_conversation_history, save_conversation_history,
      storeGet_storeDel_ne _ _ _ h]

/-- C4: For every conversation id and every sequence of N turns appended to it
by chat turns, a subsequent load of that conversation's history returns the
same N turns in the same insertion order.  Writing a turn sequence for an id
into the loaded mapping and saving the blob, then reading the id back through
the history endpoint, returns exactly that sequence. -/
theorem history_roundtrip (file : Option Store) (conversation_id : String)
    (turns : List Turn) :
    get_chat_history
      (save_conversation_history
        (storeSet (load_conversation_history file) conversation_id turns))
      conversation_id = turns := by
  simp [get_chat_history, load_conversation_history, save_conversation_history,
    storeGet_storeSet_self]

/-- C8: clearing a conversation id twice in a row succeeds both times: both
calls return the fixed success message, the second call (on the now-absent id)
leaves the file exactly as the first call left it, and every other
conversation's history is unchanged. -/
theorem clear_chat_history_idempotent (file : Option Store)
    (conversation_id other_id : String) (h : other_id ≠ conversation_id) :
    (clear_chat_history file conversation_id).1 = "Conversation history cleared" ∧
    (clear_chat_history (clear_chat_history file conversation_id).2 conversation_id).1
      = "Conversation history cleared" ∧
    (clear_chat_history (clear_chat_history file conversation_id).2 conversation_id).2
      = (clear_chat_history file conversation_id).2 ∧
    get_chat_history
      (clear_chat_history (clear_chat_history file conversation_id).2 conversation_id).2
      other_id
      = get_chat_history file other_id := by
  refine ⟨clear_chat_history_msg _ _, clear_chat_history_msg _ _, ?_, ?_⟩
  · exact clear_chat_history_absent _ _ (storeGet_after_clear file conversation_id)
  · rw [clear_chat_history_absent _ _ (storeGet_after_clear file conversation_id)]
    exact get_chat_history_after_clear_ne file conversation_id other_id h

/-- Concrete instantiation of `clear_chat_history_idempotent`. -/
theorem clear_chat_history_idempotent_witness :
    (clear_chat_history (some [("a", [⟨"user", "hi"⟩]), ("b", [⟨"user", "yo"⟩])]) "a").1
        = "Conversation history cleared" ∧
    (clear_chat_history
        (clear_chat_history (some [("a", [⟨"user", "hi"⟩]), ("b", [⟨"user", "yo"⟩])]) "a").2
        "a").1 = "Conversation history cleared" ∧
    (clear_chat_history
        (clear_chat_history (some [("a", [⟨"user", "hi"⟩]), ("b", [⟨"user", "yo"⟩])]) "a").2
        "a").2
      = (clear_chat_history (some [("a", [⟨"user", "hi"⟩]), ("b", [⟨"user", "yo"⟩])]) "a").2 ∧
    get_chat_history
        (clear_chat_history
          (clear_chat_history (some [("a", [⟨"user", "hi"⟩]), ("b", [⟨"user", "yo"⟩])]) "a").2
          "a").2 "b"
      = get_chat_history (some [("a", [⟨"user", "hi"⟩]), ("b", [⟨"user", "yo"⟩])]) "b" :=
  clear_chat_history_idempotent
    (some [("a", [⟨"user", "hi"⟩]), ("b", [⟨"user", "yo"⟩])]) "a" "b" (by decide)

/-- ASCII lowercasing of one character, as Python `str.lower` acts on the
ASCII strings this handler compares (the four keywords are ASCII literals). -/
def lowerChar (c : Char) : Char :=
  if 'A' ≤ c ∧ c ≤ 'Z' then Char.ofNat (c.toNat + 32) else c

/-- Python `s.lower()` restricted to ASCII. -/
def strLower (s : String) : String :=
  String.mk (s.data.map lowerChar)

/-- Substring test on character lists: `needle` occurs contiguously in the
haystack (Python `needle in hay`). -/
def containsSub (needle : List Char) : List Char → Bool
  | [] => needle.isEmpty
  | c :: t => needle.isPrefixOf (c :: t) || containsSub needle t

/-- Python `needle in hay` on strings. -/
def strContains (hay needle : String) : Bool :=
  containsSub needle.data hay.data

/-- app.py 577: `any(keyword in user_message.lower() for keyword in
['email', 'gmail', 'mail', 'inbox'])`. -/
def containsEmailKeyword (user_message : String) : Bool :=
  ["email", "gmail", "mail", "inbox"].any
    (fun keyword => strContains (strLower user_message) keyword)

/-- Python truthiness of the optional `user_id` (app.py 559, 578):
absent (`None`) and the empty string are falsy. -/
def userIdTruthy : Option String → Bool
  | none => false
  | some s => s ≠ ""

/-- The `POST /chat` JSON body (app.py 556-559): each field read with
`data.get`; `none` models an absent (or JSON-null) field. -/
structure ChatRequest where
  message : Option String := none
  conversation_id : Option String := none
  user_id : Option String := none
deriving DecidableEq, Repr

/-- app.py 557: `data.get('message', '')`. -/
def requestMessage (req : ChatRequest) : String :=
  req.message.getD ""

/-- app.py 558: `data.get('conversation_id', 'default')`. -/
def requestCid (req : ChatRequest) : String :=
  req.conversation_id.getD "default"

/-- The one nondeterministic external collaborator the chat handler reaches on
its main path: the model completion call (app.py 633-638).  `generate` maps
the composed message list to the assistant text; `none` models a raised
exception, which the handler's outer `except` turns into a 500 response. -/
structure ChatEnv where
  generate : List Turn → Option String

/-- The JSON response shapes the chat handler can produce.  `authPrompt` is
the fixed `requires_auth` body at app.py 579-582 (no user id), and
`reconnectPrompt` the fixed `requires_auth` body at app.py 592-596; their
literal texts are irrelevant to every claim, so the constructors stand for
the fixed bodies. -/
inductive ChatResponse where
  | ok (text : String)
  | authPrompt
  | reconnectPrompt
  | clientError (msg : String)
  | serverError
deriving DecidableEq, Repr

/-- HTTP status attached to each response shape (app.py 562, 651-654;
the keyword-branch returns at 579-596 carry Flask's default 200). -/
def responseStatus : ChatResponse → Nat
  | .ok _ => 200
  | .authPrompt => 200
  | .reconnectPrompt => 200
  | .clientError _ => 400
  | .serverError => 500

/-- Outcome of one `POST /chat` request: the response, the persisted blob
after the request, and the trace of external effect calls made while handling
it.  `calendarExecCalls` counts invocations of the calendar executor
`create_calendar_event` and `emailExecCalls` invocations of the email
executor `send_email`; `modelInput` records the message list passed to the
model call when that call is reached. -/
structure ChatOutcome where
  response : ChatResponse
  file : Option Store
  generatorCalls : Nat
  calendarExecCalls : Nat
  emailExecCalls : Nat
  modelInput : Option (List Turn)
deriving DecidableEq

/-- The fixed system prompt (app.py 322-385).  Every claim treats this string
as an opaque constant — only its identity as the first composed message
matters — so the multi-page literal is abridged to its opening sentence. -/
def system_prompt : String :=
  "You are an AI assistant created by Manuel Iyabor-David, a brilliant Nigerian American software developer."

/-- app.py 599: the calendar context placeholder.  app.py 429-446 redefines
`get_calendar_service` with zero parameters, shadowing the user-scoped
variant at 103-113, so the call `get_calendar_service(user_id)` at 603 raises
TypeError on every request; the `except` at 609 leaves this placeholder in
place. -/
def calendarPlaceholder : String :=
  "Google Calendar access not available. Please authenticate to use calendar features."

/-- app.py 600: the email context placeholder, kept for the same reason: the
zero-parameter `get_gmail_service` at 448-465 shadows the user-scoped variant
at 115-125, so the call at 613 raises TypeError and the `except` at 619
leaves the placeholder. -/
def emailPlaceholder : String :=
  "Gmail access not available. Please authenticate to use email features."

/-- Python list slice `l[-n:]`. -/
def takeLast (n : Nat) (l : List Turn) : List Turn :=
  l.drop (l.length - n)

/-- app.py 623-630: system prompt, then the two context strings as system
turns, then `conversation_history[conversation_id][-5:]` — the last five
turns of the history *after* the user turn was appended at 571-574. -/
def composeMessages (calendar_context email_context : String)
    (conv : List Turn) : List Turn :=
  [{ role := "system", content := system_prompt },
   { role := "system", content := calendar_context },
   { role := "system", content := email_context }] ++ takeLast 5 conv

/-- app.py 567-574 and 643-646: ensure the key exists, then
`conversation_history[cid].append(turn)`. -/
def appendTurn (h : Store) (cid : String) (t : Turn) : Store :=
  storeSet h cid (((storeGet h cid).getD []) ++ [t])

/-- The message list the handler passes to the model call for a given file
state and request (app.py 623-630): composed over the conversation history
with the new user turn already appended. -/
def chatMessages (file : Option Store) (req : ChatRequest) : List Turn :=
  composeMessages calendarPlaceholder emailPlaceholder
    ((storeGet
        (appendTurn (load_conversation_history file) (requestCid req)
          { role := "user", content := requestMessage req })
        (requestCid req)).getD [])

/-- app.py 633-654: the tail of the main chat path, as a function of the model
call's result.  A raised model-call exception (`none`) reaches the outer
`except` at 652-654: response 500, nothing saved.  On a returned assistant
text, the assistant turn is appended and the whole mapping is saved
(640-651), and the text is returned as the 200 response body. -/
def chatGenerateStep (file : Option Store) (req : ChatRequest) :
    Option String → ChatOutcome
  | none =>
      { response := .serverError, file := file,
        generatorCalls := 1, calendarExecCalls := 0, emailExecCalls := 0,
        modelInput := some (chatMessages file req) }
  | some ai =>
      { response := .ok ai,
        file := save_conversation_history
          (appendTurn
            (appendTurn (load_conversation_history file) (requestCid req)
              { role := "user", content := requestMessage req })
            (requestCid req) { role := "assistant", content := ai }),
        generatorCalls := 1, calendarExecCalls := 0, emailExecCalls := 0,
        modelInput := some (chatMessages file req) }

/-- The `POST /chat` handler, app.py 553-654.  Control flow of the source:
validate the message (556-562); load the history and append the user turn in
memory (564-574); if the lowered message contains an email keyword, return
one of the fixed keyword responses without saving (577-596) — with a truthy
user id the arity-broken `get_gmail_service(user_id)` call at 585 always
raises, so that branch always returns the reconnect prompt; otherwise the
context strings stay at their placeholders (599-620), the model is called
once on the composed messages (623-638), and on success the assistant turn
is appended and the whole mapping saved (640-651).  A model-call exception
reaches the outer `except` (652-654): 500, nothing saved.  No path scans the
assistant text for intents or calls `create_calendar_event` or `send_email`,
so both executor-call counters are zero on every path. -/
def chatHandler (env : ChatEnv) (file : Option Store) (req : ChatRequest) :
    ChatOutcome :=
  if requestMessage req = "" then
    { response := .clientError "Message is required", file := file,
      generatorCalls := 0, calendarExecCalls := 0, emailExecCalls := 0,
      modelInput := none }
  else if containsEmailKeyword (requestMessage req) then
    if userIdTruthy req.user_id then
      { response := .reconnectPrompt, file := file,
        generatorCalls := 0, calendarExecCalls := 0, emailExecCalls := 0,
        modelInput := none }
    else
      { response := .authPrompt, file := file,
        generatorCalls := 0, calendarExecCalls := 0, emailExecCalls := 0,
        modelInput := none }
  else
    chatGenerateStep file req (env.generate (chatMessages file req))

theorem storeGet_appendTurn_self (s : Store) (cid : String) (t : Turn) :
    storeGet (appendTurn s cid t) cid = some (((storeGet s cid).getD []) ++ [t]) := by
  simp [appendTurn, storeGet_storeSet_self]

/-- The five-turn window over a history that ends in the freshly appended user
turn always keeps that user turn and at most the four turns before it. -/
theorem takeLast_five_append (l : List Turn) (x : Turn) :
    takeLast 5 (l ++ [x]) = takeLast 4 l ++ [x] := by
  unfold takeLast
  rw [List.length_append, List.drop_append_eq_append_drop]
  simp only [List.length_singleton]
  have h1 : l.length + 1 - 5 = l.length - 4 := by omega
  have h2 : l.length - 4 - l.length = 0 := by omega
  rw [h1, h2]
  rfl

/-- On the main path (non-empty message, no email keyword) the handler always
reaches the model call, and the input it records is `chatMessages`. -/
theorem chatHandler_modelInput (env : ChatEnv) (file : Option Store)
    (req : ChatRequest) (hm : requestMessage req ≠ "")
    (hk : containsEmailKeyword (requestMessage req) = false) :
    (chatHandler env file req).modelInput = some (chatMessages file req) := by
  unfold chatHandler
  rw [if_neg hm, if_neg (by simp [hk])]
  cases hg : env.generate (chatMessages file req) <;> simp [chatGenerateStep]

/-- A `200 {"response": ...}` outcome pins down the saved file: the loaded
mapping with the user turn and then the assistant turn appended under the
request's conversation id, saved as a whole. -/
theorem chatHandler_ok_file (env : ChatEnv) (file : Option Store)
    (req : ChatRequest) (a : String)
    (h : (chatHandler env file req).response = .ok a) :
    (chatHandler env file req).file =
      some (appendTurn
        (appendTurn (load_conversation_history file) (requestCid req)
          { role := "user", content := requestMessage req })
        (requestCid req) { role := "assistant", content := a }) := by
  unfold chatHandler at h ⊢
  by_cases hm : requestMessage req = ""
  · rw [if_pos hm] at h
    exact absurd h (by simp)
  · rw [if_neg hm] at h ⊢
    cases hk : containsEmailKeyword (requestMessage req)
    · simp only [hk, Bool.false_eq_true, if_false] at h ⊢
      cases hg : env.generate (chatMessages file req) with
      | none =>
          rw [hg] at h
          simp [chatGenerateStep] at h
      | some ai =>
          rw [hg] at h
          simp only [chatGenerateStep, ChatResponse.ok.injEq] at h
          subst h
          simp [chatGenerateStep, save_conversation_history]
    · simp only [hk, if_true] at h
      cases hu : userIdTruthy req.user_id
      · rw [hu] at h
        exact absurd h (by simp)
      · rw [hu] at h
        exact absurd h (by simp)

/-- C6: a `/chat` request whose message field is absent or empty is rejected
with the client-error response (HTTP 400) before any history is loaded or
written, so the persisted blob is exactly the one the request started with. -/
theorem chat_empty_message_rejected (env : ChatEnv) (file : Option Store)
    (req : ChatRequest) (h : requestMessage req = "") :
    (chatHandler env file req).response = .clientError "Message is required" ∧
    responseStatus (chatHandler env file req).response = 400 ∧
    (chatHandler env file req).file = file := by
  simp [chatHandler, h, responseStatus]

/-- Concrete instantiation of `chat_empty_message_rejected` at an absent
message field. -/
theorem chat_empty_message_rejected_witness :
    (chatHandler ⟨fun _ => some "hi"⟩ (some [("default", [⟨"user", "old"⟩])])
        { message := none }).response = .clientError "Message is required" ∧
    responseStatus (chatHandler ⟨fun _ => some "hi"⟩
        (some [("default", [⟨"user", "old"⟩])]) { message := none }).response = 400 ∧
    (chatHandler ⟨fun _ => some "hi"⟩ (some [("default", [⟨"user", "old"⟩])])
        { message := none }).file = some [("default", [⟨"user", "old"⟩])] :=
  chat_empty_message_rejected ⟨fun _ => some "hi"⟩
    (some [("default", [⟨"user", "old"⟩])]) { message := none } rfl

/-- C7: on any request whose message contains one of the email keywords
(case-insensitively), the handler returns from the keyword branch: the model
is never called, neither executor is invoked, no model input is assembled,
and the persisted blob is untouched — the user turn appended at app.py
571-574 lives only in the discarded in-memory copy. -/
theorem chat_email_keyword_early_return (env : ChatEnv) (file : Option Store)
    (req : ChatRequest)
    (hkw : containsEmailKeyword (requestMessage req) = true) :
    (chatHandler env file req).file = file ∧
    (chatHandler env file req).generatorCalls = 0 ∧
    (chatHandler env file req).calendarExecCalls = 0 ∧
    (chatHandler env file req).emailExecCalls = 0 ∧
    (chatHandler env file req).modelInput = none := by
  by_cases hm : requestMessage req = ""
  · simp [chatHandler, hm]
  · cases hu : userIdTruthy req.user_id <;> simp [chatHandler, hm, hkw, hu]

/-- Concrete instantiation of `chat_email_keyword_early_return`. -/
theorem chat_email_keyword_early_return_witness :
    (chatHandler ⟨fun _ => some "hi"⟩ (some [("c9", [⟨"user", "old"⟩])])
        { message := some "Show me my Inbox", user_id := some "u1" }).file
      = some [("c9", [⟨"user", "old"⟩])] ∧
    (chatHandler ⟨fun _ => some "hi"⟩ (some [("c9", [⟨"user", "old"⟩])])
        { message := some "Show me my Inbox", user_id := some "u1" }).generatorCalls = 0 ∧
    (chatHandler ⟨fun _ => some "hi"⟩ (some [("c9", [⟨"user", "old"⟩])])
        { message := some "Show me my Inbox", user_id := some "u1" }).calendarExecCalls = 0 ∧
    (chatHandler ⟨fun _ => some "hi"⟩ (some [("c9", [⟨"user", "old"⟩])])
        { message := some "Show me my Inbox", user_id := some "u1" }).emailExecCalls = 0 ∧
    (chatHandler ⟨fun _ => some "hi"⟩ (some [("c9", [⟨"user", "old"⟩])])
        { message := some "Show me my Inbox", user_id := some "u1" }).modelInput = none :=
  chat_email_keyword_early_return ⟨fun _ => some "hi"⟩
    (some [("c9", [⟨"user", "old"⟩])])
    { message := some "Show me my Inbox", user_id := some "u1" } (by decide)

/-- C3: two sequential `/chat` requests on one conversation id, both
completing normally (the full pipeline runs and returns the
`200 {"response": ...}` body), leave the persisted history of that id equal
to whatever was stored before plus exactly four turns — user, assistant,
user, assistant — in that order. -/
theorem chat_two_requests_append_four_turns (env1 env2 : ChatEnv)
    (file : Option Store) (req1 req2 : ChatRequest) (a1 a2 : String)
    (hcid : requestCid req2 = requestCid req1)
    (h1 : (chatHandler env1 file req1).response = .ok a1)
    (h2 : (chatHandler env2 (chatHandler env1 file req1).file req2).response = .ok a2) :
    get_chat_history (chatHandler env2 (chatHandler env1 file req1).file req2).file
        (requestCid req1)
      = get_chat_history file (requestCid req1)
        ++ [{ role := "user", content := requestMessage req1 },
            { role := "assistant", content := a1 },
            { role := "user", content := requestMessage req2 },
            { role := "assistant", content := a2 }] := by
  have e1 := chatHandler_ok_file env1 file req1 a1 h1
  have e2 := chatHandler_ok_file env2 (chatHandler env1 file req1).file req2 a2 h2
  rw [e2, hcid, e1]
  simp [get_chat_history, load_conversation_history, storeGet_appendTurn_self]

/-- Environment, file state and requests for the two-request scenario. -/
def c3Env : ChatEnv := ⟨fun _ => some "Sure, happy to help."⟩

def c3File : Option Store := some [("default", [⟨"user", "old"⟩, ⟨"assistant", "past"⟩])]

def c3Req1 : ChatRequest := { message := some "hello there" }

def c3Req2 : ChatRequest := { message := some "tell me a story" }

/-- Concrete instantiation of `chat_two_requests_append_four_turns`. -/
theorem chat_two_requests_append_four_turns_witness :
    get_chat_history (chatHandler c3Env (chatHandler c3Env c3File c3Req1).file c3Req2).file
        (requestCid c3Req1)
      = get_chat_history c3File (requestCid c3Req1)
        ++ [{ role := "user", content := requestMessage c3Req1 },
            { role := "assistant", content := "Sure, happy to help." },
            { role := "user", content := requestMessage c3Req2 },
            { role := "assistant", content := "Sure, happy to help." }] :=
  chat_two_requests_append_four_turns c3Env c3Env c3File c3Req1 c3Req2
    "Sure, happy to help." "Sure, happy to help." rfl (by decide) (by decide)

/-- Composition of the model input as the specification sentence behind C5
describes it (spec.md section 4.3 step 5): the fixed system prompt, the two
context strings as pseudo-system turns, the most recent five turns of the
PRIOR history, and then the new user turn.  Stated for comparison with the
source's `composeMessages`, which applies the five-turn window only after
the user turn has been appended. -/
def composeMessagesSpec (calendar_context email_context : String)
    (prior : List Turn) (user_message : String) : List Turn :=
  [{ role := "system", content := system_prompt },
   { role := "system", content := calendar_context },
   { role := "system", content := email_context }]
  ++ takeLast 5 prior
  ++ [{ role := "user", content := user_message }]

/-- A stored history of five prior turns for the default conversation id. -/
def c5Prior : List Turn :=
  [⟨"user", "m1"⟩, ⟨"assistant", "r1"⟩, ⟨"user", "m2"⟩, ⟨"assistant", "r2"⟩,
   ⟨"user", "m3"⟩]

/-- C5 as stated is false: with five prior turns stored, the model input the
handler assembles is not the system turns followed by the five prior turns
and then the user turn — the source takes the five-turn window after
appending the user turn, so the oldest prior turn is dropped. -/
theorem chat_model_input_window_counterexample :
    (chatHandler ⟨fun _ => some "ok"⟩ (some [("default", c5Prior)])
        { message := some "hello" }).modelInput
      ≠ some (composeMessagesSpec calendarPlaceholder emailPlaceholder c5Prior
          "hello") := by
  decide

/-- C5 amended: for a non-empty, non-keyword message on a conversation whose
stored history has at least five (the capped number of) prior turns, the
model input is the fixed system prompt, the calendar and email context
strings as system turns, then the most recent FOUR prior turns followed by
the new user turn — the five-turn cap is applied after the user turn is
appended, so the window holds four prior turns plus the new one. -/
theorem chat_model_input_window (env : ChatEnv) (file : Option Store)
    (req : ChatRequest) (prior : List Turn)
    (hm : requestMessage req ≠ "")
    (hk : containsEmailKeyword (requestMessage req) = false)
    (hp : storeGet (load_conversation_history file) (requestCid req) = some prior)
    (_hlen : 5 ≤ prior.length) :
    (chatHandler env file req).modelInput
      = some ([{ role := "system", content := system_prompt },
               { role := "system", content := calendarPlaceholder },
               { role := "system", content := emailPlaceholder }]
              ++ (takeLast 4 prior
                  ++ [{ role := "user", content := requestMessage req }])) := by
  rw [chatHandler_modelInput env file req hm hk]
  unfold chatMessages composeMessages
  rw [storeGet_appendTurn_self, hp]
  simp [takeLast_five_append]

/-- Concrete instantiation of `chat_model_input_window`. -/
theorem chat_model_input_window_witness :
    (chatHandler ⟨fun _ => some "ok"⟩ (some [("default", c5Prior)])
        { message := some "hello" }).modelInput
      = some ([{ role := "system", content := system_prompt },
               { role := "system", content := calendarPlaceholder },
               { role := "system", content := emailPlaceholder }]
              ++ (takeLast 4 c5Prior ++ [{ role := "user", content := "hello" }])) :=
  chat_model_input_window ⟨fun _ => some "ok"⟩ (some [("default", c5Prior)])
    { message := some "hello" } c5Prior (by decide) (by decide) (by decide) (by decide)

/-- The calendar-intent sentinel marker the specification prescribes
(spec.md section 4.1): the literal substring searched for case-sensitively in
the assistant text. -/
def markerCreateEvent : String := "\"action\": \"create_event\""

/-- JSON string literal rendering for building a well-formed action payload. -/
def jsonStr (s : String) : String := "\"" ++ s ++ "\""

/-- A well-formed create-event action payload, by construction: a JSON object
with an `action` field equal to `create_event` and an `event_details`
object carrying the given fields. -/
def renderCreateEventPayload (summary start_time end_time timezone : String) :
    String :=
  "\x7b \"action\": \"create_event\", \"event_details\": \x7b \"summary\": "
    ++ jsonStr summary
    ++ ", \"start_time\": " ++ jsonStr start_time
    ++ ", \"end_time\": " ++ jsonStr end_time
    ++ ", \"timezone\": " ++ jsonStr timezone
    ++ " \x7d \x7d"

/-- An assistant reply carrying a well-formed create-event payload. -/
def c1AssistantText : String :=
  "Here is the event I will create: "
    ++ renderCreateEventPayload "Team sync" "2025-01-06T10:00:00"
        "2025-01-06T11:00:00" "America/New_York"

/-- A user request that reaches the main chat path (non-empty, and free of
the four email keywords). -/
def c1Req : ChatRequest := { message := some "please schedule a team sync for monday" }

set_option maxRecDepth 8192 in
/-- C1 is violated by the code: even when the model reply contains the
create-event marker followed by a well-formed JSON payload with an
`event_details` object, the chat handler returns that reply verbatim and the
calendar executor is invoked zero times — on this run and on every possible
run, since no path of `chatHandler` (app.py 553-654) inspects the assistant
text or calls `create_calendar_event`. -/
theorem chat_create_event_marker_never_dispatched :
    strContains c1AssistantText markerCreateEvent = true ∧
    (chatHandler ⟨fun _ => some c1AssistantText⟩ none c1Req).response
      = .ok c1AssistantText ∧
    (chatHandler ⟨fun _ => some c1AssistantText⟩ none c1Req).calendarExecCalls = 0 ∧
    ∀ (env : ChatEnv) (file : Option Store) (req : ChatRequest),
      (chatHandler env file req).calendarExecCalls = 0 := by
  refine ⟨by decide, by decide, by decide, ?_⟩
  intro env file req
  unfold chatHandler
  by_cases hm : requestMessage req = ""
  · simp [hm]
  · rw [if_neg hm]
    cases hk : containsEmailKeyword (requestMessage req)
    · simp only [Bool.false_eq_true, if_false]
      cases hg : env.generate (chatMessages file req) <;> simp [chatGenerateStep]
    · simp only [if_true]
      cases hu : userIdTruthy req.user_id <;> simp

/-- An email intent, `{to, subject, body}` (spec.md section 3); the recipient
field is named `to_email` after the source parameter (app.py 299), since `to`
is reserved here. -/
structure EmailIntent where
  to_email : String
  subject : String
  body : String
deriving DecidableEq, Repr

/-- Index of the first occurrence of `needle` in the haystack, if any. -/
def findSub (needle : List Char) : List Char → Option Nat
  | [] => if needle.isEmpty then some 0 else none
  | c :: t =>
      if needle.isPrefixOf (c :: t) then some 0
      else (findSub needle t).map (fun i => i + 1)

/-- Split once on the first occurrence of a separator: the part before it
and the part after it. -/
def splitOnceL (sep l : List Char) : Option (List Char × List Char) :=
  match findSub sep l with
  | none => none
  | some i => some (l.take i, l.drop (i + sep.length))

/-- Strip leading and trailing whitespace (Python `str.strip`). -/
def trimL (l : List Char) : List Char :=
  ((l.dropWhile Char.isWhitespace).reverse.dropWhile Char.isWhitespace).reverse

/-- Modelled from the spec: the email-intent extractor of spec.md section 4.1
is absent from this revision's chat handler (no code in `chat`, app.py
553-654, scans the assistant text), so the extraction contract is embedded
from the spec's words — search case-insensitively for `send email to:`, take
the text from the marker onward, split once on ` subject: ` (recipient before
it, trimmed), split the remainder once on ` body: ` (subject and body,
trimmed); missing separators mean no intent. -/
def extractEmailIntentSpec (assistant_text : String) : Option EmailIntent :=
  let chars := assistant_text.data
  match findSub "send email to:".data (chars.map lowerChar) with
  | none => none
  | some i =>
      let rest := chars.drop (i + "send email to:".length)
      match splitOnceL " subject: ".data rest with
      | none => none
      | some (toPart, rem) =>
          match splitOnceL " body: ".data rem with
          | none => none
          | some (subjPart, bodyPart) =>
              some { to_email := String.mk (trimL toPart),
                     subject := String.mk (trimL subjPart),
                     body := String.mk (trimL bodyPart) }

/-- An assistant reply carrying the email sentinel pattern of the claim. -/
def c2AssistantText : String :=
  "Here is what I propose to send: send email to: a@b.com subject: Hi body: Hello"

/-- A user request that reaches the main chat path (non-empty, and free of
the four email keywords — in particular free of the substring `mail`). -/
def c2Req : ChatRequest := { message := some "write to bob for me" }

set_option maxRecDepth 8192 in
/-- C2 is violated by the code: the assistant text contains the sentinel
`send email to: a@b.com subject: Hi body: Hello`, and the spec's extractor
applied to it yields exactly `{to: a@b.com, subject: Hi, body: Hello}` — yet
the chat handler returns the text verbatim, performs no extraction, and the
email executor is invoked zero times on this run and on every possible run,
since no path of `chatHandler` (app.py 553-654) scans the assistant text or
calls `send_email`. -/
theorem chat_send_email_sentinel_never_dispatched :
    strContains c2AssistantText "send email to: a@b.com subject: Hi body: Hello"
      = true ∧
    extractEmailIntentSpec c2AssistantText
      = some { to_email := "a@b.com", subject := "Hi", body := "Hello" } ∧
    (chatHandler ⟨fun _ => some c2AssistantText⟩ none c2Req).response
      = .ok c2AssistantText ∧
    (chatHandler ⟨fun _ => some c2AssistantText⟩ none c2Req).emailExecCalls = 0 ∧
    ∀ (env : ChatEnv) (file : Option Store) (req : ChatRequest),
      (chatHandler env file req).emailExecCalls = 0 := by
  refine ⟨by decide, by decide, by decide, by decide, ?_⟩
  intro env file req
  unfold chatHandler
  by_cases hm : requestMessage req = ""
  · simp [hm]
  · rw [if_neg hm]
    cases hk : containsEmailKeyword (requestMessage req)
    · simp only [Bool.false_eq_true, if_false]
      cases hg : env.generate (chatMessages file req) <;> simp [chatGenerateStep]
    · simp only [if_true]
      cases hu : userIdTruthy req.user_id <;> simp

/-- The `event_details` input of the calendar executor (app.py 263-297,
google_services.py 100-134): a JSON object read with `dict.get`, so every
field is optional; `none` models an absent key. -/
structure EventDetails where
  summary : Option String := none
  location : Option String := none
  description : Option String := none
  start_time : Option String := none
  end_time : Option String := none
  timezone : Option String := none
  recurrence : Option String := none
  attendees : Option (List String) := none
  reminders : Option (List (String × String)) := none
deriving DecidableEq, Repr

/-- One attendee record `{'email': ...}` (app.py 288). -/
structure Attendee where
  email : String
deriving DecidableEq, Repr

/-- A provider time record `{'dateTime': ..., 'timeZone': ...}`
(app.py 272-279). -/
structure GTime where
  dateTime : Option String
  timeZone : String
deriving DecidableEq, Repr

/-- The provider event body passed to `events().insert` (app.py 268-294).
The `end` key is named `end_` here because `end` is reserved.  `none` in the
optional `recurrence`, `attendees` and `reminders` fields models the key
being absent from the dict (the code adds those keys only when the input
value is truthy); `location`, `summary` and `description` keys are always
present, with a JSON-null value (`none`) when the input lacked them. -/
structure GEvent where
  summary : Option String
  location : Option String
  description : Option String
  start : GTime
  end_ : GTime
  recurrence : Option (List String)
  attendees : Option (List Attendee)
  reminders : Option (List (String × String))
deriving DecidableEq, Repr

/-- app.py 263-294 / google_services.py 100-131: build the provider event
from `event_details`.  `event_details.get('timezone', 'UTC')` fills both time
records; `if event_details.get('recurrence')` (and likewise `attendees`,
`reminders`) is Python truthiness: the key is added only for a present,
non-empty value. -/
def create_calendar_event (event_details : EventDetails) : GEvent :=
  { summary := event_details.summary,
    location := event_details.location,
    description := event_details.description,
    start := { dateTime := event_details.start_time,
               timeZone := event_details.timezone.getD "UTC" },
    end_ := { dateTime := event_details.end_time,
              timeZone := event_details.timezone.getD "UTC" },
    recurrence :=
      match event_details.recurrence with
      | some r => if r ≠ "" then some [r] else none
      | none => none,
    attendees :=
      match event_details.attendees with
      | some l => if l ≠ [] then some (l.map Attendee.mk) else none
      | none => none,
    reminders :=
      match event_details.reminders with
      | some rem => if rem ≠ [] then some rem else none
      | none => none }

/-- C9: when `event_details` has no timezone field, both the start and the end
records of the provider event carry the single default timezone `"UTC"`
(the `.get('timezone', 'UTC')` fallback), and a missing location field falls
back to an empty location value — the `location` key is passed through as
JSON null, carrying no location string. -/
theorem create_event_defaults (event_details : EventDetails)
    (htz : event_details.timezone = none)
    (hloc : event_details.location = none) :
    (create_calendar_event event_details).start.timeZone = "UTC" ∧
    (create_calendar_event event_details).end_.timeZone = "UTC" ∧
    (create_calendar_event event_details).location = none := by
  simp [create_calendar_event, htz, hloc]

/-- Concrete instantiation of `create_event_defaults`. -/
theorem create_event_defaults_witness :
    (create_calendar_event { summary := some "Team sync" }).start.timeZone = "UTC" ∧
    (create_calendar_event { summary := some "Team sync" }).end_.timeZone = "UTC" ∧
    (create_calendar_event { summary := some "Team sync" }).location = none :=
  create_event_defaults { summary := some "Team sync" } rfl rfl

/-- The urlsafe base64 alphabet (RFC 4648 section 5), as used by Python's
`base64.urlsafe_b64encode`. -/
def b64UrlAlphabet : List Char :=
  "ABCDEFGHIJKLMNOPQRSTUVWXYZabcdefghijklmnopqrstuvwxyz0123456789-_".data

/-- The alphabet character for a 6-bit value. -/
def b64Char (n : Nat) : Char := b64UrlAlphabet.getD n 'A'

/-- `base64.urlsafe_b64encode` over a byte list: three bytes become four
alphabet characters; a trailing group of one or two bytes is padded with
`=` to a full four-character group (padding is retained, not stripped). -/
def base64urlEncodeL : List Nat → List Char
  | [] => []
  | [a] => [b64Char (a / 4), b64Char (a % 4 * 16), '=', '=']
  | [a, b] =>
      [b64Char (a / 4), b64Char (a % 4 * 16 + b / 16), b64Char (b % 16 * 4), '=']
  | a :: b :: c :: rest =>
      b64Char (a / 4) :: b64Char (a % 4 * 16 + b / 16) ::
        b64Char (b % 16 * 4 + c / 64) :: b64Char (c % 64) :: base64urlEncodeL rest

/-- `base64.urlsafe_b64encode(...).decode('utf-8')` (app.py 308). -/
def base64urlEncode (bs : List Nat) : String := String.mk (base64urlEncodeL bs)

/-- The encoding always has length a multiple of four: `=` padding is
retained, never stripped. -/
theorem base64urlEncodeL_length :
    ∀ bs : List Nat, (base64urlEncodeL bs).length % 4 = 0
  | [] => by simp [base64urlEncodeL]
  | [a] => by simp [base64urlEncodeL]
  | [a, b] => by simp [base64urlEncodeL]
  | a :: b :: c :: rest => by
      have ih := base64urlEncodeL_length rest
      simp only [base64urlEncodeL, List.length_cons]
      omega

/-- The bytes of an ASCII string (`message.as_bytes()` input side). -/
def strBytes (s : String) : List Nat := s.data.map Char.toNat

/-- `MIMEText(body)` with `message['to']` and `message['subject']` set
(app.py 304-306), serialized by `message.as_bytes()` for ASCII content:
the `MIMEText` constructor's fixed `Content-Type`, `MIME-Version` and
`Content-Transfer-Encoding` headers, then the two headers added in the shown
order with the keys as written, a blank line, and the body. -/
def mimeSerialize (to_email subject body : String) : String :=
  "Content-Type: text/plain; charset=\"us-ascii\"\n"
    ++ "MIME-Version: 1.0\n"
    ++ "Content-Transfer-Encoding: 7bit\n"
    ++ "to: " ++ to_email ++ "\n"
    ++ "subject: " ++ subject ++ "\n"
    ++ "\n"
    ++ body

/-- One Gmail `users().messages().send` call: `userId='me'` and the request
body `{'raw': ...}` (app.py 310-313). -/
structure GmailSendCall where
  userId : String
  raw : String
deriving DecidableEq, Repr

/-- app.py 299-316 / google_services.py 136-153: build the MIME message, set
its `to` and `subject` headers, base64url-encode its serialized bytes, and
issue one send call.  The function returns the list of provider send calls
issued. -/
def send_email (to_email subject body : String) : List GmailSendCall :=
  [{ userId := "me",
     raw := base64urlEncode (strBytes (mimeSerialize to_email subject body)) }]

/-- C10: for every recipient, subject and body, `send_email` issues exactly
one provider send call, whose `raw` field is exactly the base64url encoding
of the serialized MIME text message carrying those headers and that body,
and the encoding keeps its `=` padding (its length is a multiple of four). -/
theorem send_email_one_call_padded (to_email subject body : String) :
    send_email to_email subject body
      = [{ userId := "me",
           raw := base64urlEncode (strBytes (mimeSerialize to_email subject body)) }] ∧
    (base64urlEncode (strBytes (mimeSerialize to_email subject body))).length % 4
      = 0 := by
  refine ⟨rfl, ?_⟩
  exact base64urlEncodeL_length (strBytes (mimeSerialize to_email subject body))

end MyAiBackend
